import Mathlib

/-!
Verification of the interactive Docker TTY session core
(`src/DockerExecutor.class.ts`).  The TypeScript class is shallowly
embedded: JavaScript strings become `List Char`, the mutable fields of the
`DockerExecutor` object become an explicit `ExecutorState` record, the
event handlers (`data`, `end`, `error`, stdin `data`) become pure state
transformers, and asynchronous failure outcomes of the Docker runtime are
supplied as an explicit environment record.
-/

namespace DockerExec

/-- Whitespace characters relevant to JavaScript `String.prototype.trim`
for the ASCII data handled by the executor. -/
def isJsWhitespace (c : Char) : Bool :=
  c == ' ' || c == '\t' || c == '\n' || c == '\r' || c == '\x0b' || c == '\x0c'

/-- JavaScript `trim()`: strip whitespace from both ends. -/
def jsTrim (l : List Char) : List Char :=
  ((l.dropWhile isJsWhitespace).reverse.dropWhile isJsWhitespace).reverse

/-- JavaScript `data.includes(pat)`: `pat` occurs contiguously in `data`. -/
def includes (data pat : List Char) : Bool :=
  match data with
  | [] => pat.isEmpty
  | c :: rest => pat.isPrefixOf (c :: rest) || includes rest pat

/-- Helper for the metadata regex `/^[{"].*stream.*true.*[}"]$/`: does the
list contain an occurrence of `stream` followed by a disjoint occurrence of
`true`? -/
def hasStreamThenTrue : List Char → Bool
  | [] => false
  | c :: rest =>
      (("stream".toList).isPrefixOf (c :: rest) && includes ((c :: rest).drop 6) ("true".toList))
        || hasStreamThenTrue rest

/-- The regex test `data.trim().match(/^[{"].*stream.*true.*[}"]$/)` from
`setupTTYStream` (line 365), applied to the already-trimmed text: first
character `\x7b` or `"`, last character `\x7d` or `"`, and between them an
occurrence of `stream` followed by `true`, with no line terminator in the
`.*` spans (JavaScript `.` does not match `\n` or `\r`). -/
def regexTrimMatch (s : List Char) : Bool :=
  match s with
  | [] => false
  | [_] => false
  | c :: rest =>
      (c == '\x7b' || c == '"') &&
      (match rest.getLast? with
       | some d => d == '\x7d' || d == '"'
       | none => false) &&
      rest.dropLast.all (fun x => !(x == '\n' || x == '\r')) &&
      hasStreamThenTrue rest.dropLast

/-- The structural-marker classifier `isDockerMetadata` from
`setupTTYStream` (lines 352-365), clause for clause. -/
def isDockerMetadata (data : List Char) : Bool :=
  includes data ("\"stream\":".toList) ||
  includes data ("\"hijack\":".toList) ||
  includes data ("\"stderr\":".toList) ||
  includes data ("\"stdin\":".toList) ||
  includes data ("\"stdout\":".toList) ||
  includes data ("stream:true".toList) ||
  includes data ("hijack:true".toList) ||
  includes data ("stdin:true".toList) ||
  includes data ("stdout:true".toList) ||
  includes data ("stderr:true".toList) ||
  (("\x7b".toList).isPrefixOf data && includes data ("\":true\x7d".toList)) ||
  (includes data ("\x7b\"".toList) && includes data ("\":true".toList)) ||
  regexTrimMatch (jsTrim data)

/-- `hasPrompt` from the `data` handler (line 390): the chunk contains a
shell-prompt fragment. -/
def hasPrompt (data : List Char) : Bool :=
  includes data ("root@".toList) || includes data ("# ".toList) || includes data ("$ ".toList)

/-- The readiness condition of the `data` handler (lines 390-394):
`hasPrompt || (hasOutput && hasNewline)` with
`hasOutput = data.trim().length > 10 && !isDockerMetadata` and
`hasNewline = data.includes('\n')`. -/
def chunkSignalsReady (data : List Char) : Bool :=
  hasPrompt data ||
    (decide (10 < (jsTrim data).length) && !isDockerMetadata data && includes data ("\n".toList))

/-- The readiness condition as the specification words it: "more than 10
non-whitespace characters" in place of the code's trimmed-length test.
Stated from the spec for refinement comparison with `chunkSignalsReady`. -/
def chunkSignalsReadySpecWords (data : List Char) : Bool :=
  hasPrompt data ||
    (decide (10 < (data.filter (fun c => !isJsWhitespace c)).length) && includes data ("\n".toList))

/-- The buffer append of the `data` handler (lines 381-385):
`_buffer += data; if (_buffer.length > 10000) _buffer = _buffer.slice(-5000)`. -/
def bufferAppend (buf data : List Char) : List Char :=
  let b := buf ++ data
  if 10000 < b.length then b.drop (b.length - 5000) else b

/-- The mutable fields of the `DockerExecutor` object, together with
observation fields that record the external effects the class performs:
`termOut` collects bytes written to the host terminal, `streamWrites`
collects chunks written into the container stream, `destroyCalls` counts
invocations of `destroyContainer`, and `resetCalls` counts invocations of
`resetState`.  `statusLine` models the transient status banner
(`some msg` after `updateStatus msg`, `none` after `clearStatus`), and
`readyPending` models `readyResolve` being non-null (the latch not yet
fired). -/
structure ExecutorState where
  container : Option Nat
  ttyStream : Option Nat
  buffer : List Char
  isFirstData : Bool
  shouldStop : Bool
  imageName : List Char
  readyPending : Bool
  statusLine : Option (List Char)
  termOut : List Char
  streamWrites : List (List Char)
  destroyCalls : Nat
  resetCalls : Nat
  deriving DecidableEq, Repr

/-- `updateStatus` (stdout helper): the status banner shows `msg`. -/
def updateStatus (st : ExecutorState) (msg : List Char) : ExecutorState :=
  { st with statusLine := some msg }

/-- `clearStatus` (stdout helper): the status banner is erased. -/
def clearStatus (st : ExecutorState) : ExecutorState :=
  { st with statusLine := none }

/-- `resetState` (lines 78-89): clears both handles and the buffer,
restores the first-data and stop flags, and recreates the ready promise.
`resetCalls` records the invocation. -/
def resetState (st : ExecutorState) : ExecutorState :=
  { st with container := none, ttyStream := none, buffer := [], isFirstData := true,
            shouldStop := false, readyPending := true, resetCalls := st.resetCalls + 1 }

/-- `destroyContainer` (lines 602-649): the Docker stop/remove calls are
external; observably one destroy invocation happens and the routine ends
with `clearStatus`.  `destroyCalls` records the invocation. -/
def destroyContainer (st : ExecutorState) : ExecutorState :=
  clearStatus { st with destroyCalls := st.destroyCalls + 1 }

/-- `isReady` (lines 92-94): no container and no stream are held. -/
def isReadyB (st : ExecutorState) : Bool :=
  st.container.isNone && st.ttyStream.isNone

/-- `stop` (lines 66-75): sets the stop intent and shows the shutdown
status.  The delayed status clear (a 2-second timer) and the
`ttyStream?.end()` call act asynchronously: the resulting stream `end`
event is delivered as a separate trace event. -/
def stop (st : ExecutorState) : ExecutorState :=
  updateStatus { st with shouldStop := true } ("Stop command received - shutting down...".toList)

/-- The stream `data` handler (lines 346-405).  Metadata chunks return
early; real chunks clear the first-data flag, are echoed to the host
terminal, appended to the buffer under `bufferAppend`, and checked against
the readiness condition; the returned flag records whether this chunk
fired the latch (`readyResolve()` followed by `readyResolve = null`). -/
def handleChunkFired (st : ExecutorState) (data : List Char) : ExecutorState × Bool :=
  if isDockerMetadata data then (st, false)
  else
    let st1 := if st.isFirstData && decide (0 < (jsTrim data).length) then
                 { st with isFirstData := false } else st
    let st2 := { st1 with termOut := st1.termOut ++ data }
    let st3 := { st2 with buffer := bufferAppend st2.buffer data }
    if st3.readyPending && chunkSignalsReady data then
      ({ st3 with readyPending := false }, true)
    else (st3, false)

/-- The stream `data` handler, state part only. -/
def handleChunk (st : ExecutorState) (data : List Char) : ExecutorState :=
  (handleChunkFired st data).1

/-- The fallback branch `if (this.readyResolve) { this.readyResolve();
this.readyResolve = null; }` (lines 564-568): fires the latch when it is
still pending.  The flag records whether it fired. -/
def fallbackTimerFire (st : ExecutorState) : ExecutorState × Bool :=
  if st.readyPending then ({ st with readyPending := false }, true) else (st, false)

/-- An event that can touch the readiness latch during one session
lifetime: a stream chunk arriving, or the fallback timer expiring. -/
inductive ReadyEvent
  | chunk (data : List Char)
  | timer
  deriving Repr

/-- One readiness-relevant step, with a flag recording whether the latch
fired during it. -/
def readyStep (st : ExecutorState) : ReadyEvent → ExecutorState × Bool
  | ReadyEvent.chunk data => handleChunkFired st data
  | ReadyEvent.timer => fallbackTimerFire st

/-- How many times the latch fires along a trace of readiness events. -/
def fireCount (st : ExecutorState) : List ReadyEvent → Nat
  | [] => 0
  | e :: rest =>
      let r := readyStep st e
      (if r.2 then 1 else 0) + fireCount r.1 rest

/-- The stream `end` handler (lines 408-426): clear status, restore the
terminal, destroy the container if a handle exists, reset the state. -/
def handleStreamEnd (st : ExecutorState) : ExecutorState :=
  let s1 := clearStatus st
  let s2 := if s1.container.isSome then destroyContainer s1 else s1
  resetState s2

/-- The stream `error` handler (lines 429-443): clear status, restore the
terminal, destroy the container if a handle exists, reset the state. -/
def handleStreamError (st : ExecutorState) : ExecutorState :=
  let s1 := clearStatus st
  if s1.container.isSome then resetState (destroyContainer s1)
  else resetState s1

/-- Session-level events for the teardown analysis: a `stop()` call, or a
terminal event delivered by the duplex stream. -/
inductive SessionEvent
  | stopCall
  | streamEnd
  | streamError
  deriving DecidableEq, Repr

/-- Dispatch of one session event. -/
def sessionStep (st : ExecutorState) : SessionEvent → ExecutorState
  | SessionEvent.stopCall => stop st
  | SessionEvent.streamEnd => handleStreamEnd st
  | SessionEvent.streamError => handleStreamError st

/-- Run a trace of session events. -/
def runSession (st : ExecutorState) : List SessionEvent → ExecutorState
  | [] => st
  | e :: rest => runSession (sessionStep st e) rest

/-- A stream-terminal event (`end` or `error`), as opposed to a `stop()`
call.  A duplex stream delivers at most one terminal event. -/
def isTerminalEvent : SessionEvent → Bool
  | SessionEvent.stopCall => false
  | SessionEvent.streamEnd => true
  | SessionEvent.streamError => true

/-- The error message thrown by `runNewContainer` when a session is still
active (line 99). -/
def alreadyActiveMessage : List Char :=
  "DockerExecutor is still managing an active container. End the current session first.".toList

/-- `runNewContainer` (lines 97-107) up to the hand-off to `runContainer`:
the guard throws before any mutation; on success the optional image
override is written and the updated state is what `runContainer` starts
from. -/
def runNewContainerModel (st : ExecutorState) (img : Option (List Char)) :
    ExecutorState × Except (List Char) Unit :=
  if isReadyB st then
    let st1 := match img with
               | some i => { st with imageName := i }
               | none => st
    (st1, Except.ok ())
  else
    (st, Except.error alreadyActiveMessage)

/-- Outcomes of the external Docker runtime operations during one spawn:
whether the ping, image pull, container create, container start, and
stream attach each succeed. -/
structure DockerEnv where
  pingOk : Bool
  pullOk : Bool
  createOk : Bool
  startOk : Bool
  attachOk : Bool
  deriving DecidableEq, Repr

/-- The error classes thrown inside `createContainer`/`runContainer`. -/
inductive SpawnError
  | runtimeUnavailable
  | imagePull
  | containerCreate
  | containerStart
  | attachFailure
  deriving DecidableEq, Repr

def initializingText : List Char := "Initializing container...".toList
def checkingText : List Char := "Checking Docker Engine availability...".toList
def pullingText (img : List Char) : List Char :=
  "Pulling image: ".toList ++ img ++ "...".toList
def creatingText : List Char := "Creating container...".toList
def createdText : List Char := "Container created".toList
def startingText : List Char := "Starting container...".toList
def startedText : List Char := "Container started - TTY session active".toList

/-- `createContainer` (lines 122-193): ping check, image pull, container
create, each failure clearing the status and throwing; success records the
container handle after the `Container created` status. -/
def createContainerModel (st : ExecutorState) (env : DockerEnv) (cid : Nat) :
    ExecutorState × Option SpawnError :=
  let s1 := updateStatus st checkingText
  if !env.pingOk then (clearStatus s1, some SpawnError.runtimeUnavailable)
  else
    let s2 := updateStatus s1 (pullingText st.imageName)
    if !env.pullOk then (clearStatus s2, some SpawnError.imagePull)
    else
      let s3 := updateStatus s2 creatingText
      if !env.createOk then (clearStatus s3, some SpawnError.containerCreate)
      else ({ updateStatus s3 createdText with container := some cid }, none)

/-- The catch block of `runContainer` (lines 570-599): clear status,
restore the terminal, destroy the container if a handle exists, reset the
state instead of exiting. -/
def spawnFailureRecovery (st : ExecutorState) : ExecutorState :=
  let s1 := clearStatus st
  let s2 := if s1.container.isSome then destroyContainer s1 else s1
  resetState s2

/-- `runContainer` (lines 533-600) up to the point where the handlers are
installed and the detached follow-up routine starts: create, start, attach
on the happy path, with every failure funnelled through
`spawnFailureRecovery`. -/
def runContainerModel (st : ExecutorState) (env : DockerEnv) (cid sid : Nat) : ExecutorState :=
  let s0 := updateStatus st initializingText
  match createContainerModel s0 env cid with
  | (s1, some _) => spawnFailureRecovery s1
  | (s1, none) =>
      let s2 := updateStatus s1 startingText
      if !env.startOk then spawnFailureRecovery s2
      else
        let s3 := updateStatus s2 startedText
        if !env.attachOk then spawnFailureRecovery s3
        else { s3 with ttyStream := some sid }

/-- The Session states observable at the suspension points of the happy
path of `runContainer`, in source order: awaiting the ping, the pull, and
the create (container and stream both absent), awaiting
`container.start()` and `container.attach()` (container held, stream still
absent, lines 541 and 335), and finally the attached state after the
stream is assigned. -/
def spawnSuspensionStates (st : ExecutorState) (cid sid : Nat) : List ExecutorState :=
  let s1 := updateStatus (updateStatus st initializingText) checkingText
  let s2 := updateStatus s1 (pullingText st.imageName)
  let s3 := updateStatus s2 creatingText
  let s4 := updateStatus { updateStatus s3 createdText with container := some cid } startingText
  let s5 := updateStatus s4 startedText
  let s6 := { s5 with ttyStream := some sid }
  [s1, s2, s3, s4, s5, s6]

/-- The handle invariant claimed by the specification: the container
handle and the stream handle are both absent or both present. -/
def handlesBalanced (st : ExecutorState) : Bool :=
  st.container.isSome == st.ttyStream.isSome

/-- The steps of the detached async block started at the end of
`runContainer` (lines 552-569), in source order: `delay(1000)`, the
`\r` nudge, `await this.ready()`, `delay(500)`,
`setupTerminalReservation()`, `delay(5000)`, and the conditional fallback
resolve. -/
inductive FollowUpStep
  | delayStep (ms : Nat)
  | writeNudge
  | awaitReady
  | setupTerminal
  | fallbackResolve
  deriving DecidableEq, Repr

/-- The follow-up routine of `runContainer`, step by step from the source. -/
def followUpRoutine : List FollowUpStep :=
  [FollowUpStep.delayStep 1000, FollowUpStep.writeNudge, FollowUpStep.awaitReady,
   FollowUpStep.delayStep 500, FollowUpStep.setupTerminal,
   FollowUpStep.delayStep 5000, FollowUpStep.fallbackResolve]

/-- Execution of the follow-up routine when the stream delivers no
qualifying chunk (a silent shell), so nothing other than the routine
itself can fire the latch.  `pending` is the latch state
(`readyResolve` non-null).  `awaitReady` blocks while the latch is
pending; `fallbackResolve` fires it.  Returns the steps not yet executed
and the final latch state. -/
def runFollowUpSilent : List FollowUpStep → Bool → List FollowUpStep × Bool
  | [], pending => ([], pending)
  | FollowUpStep.awaitReady :: rest, pending =>
      if pending then (FollowUpStep.awaitReady :: rest, pending)
      else runFollowUpSilent rest pending
  | FollowUpStep.fallbackResolve :: rest, _ => runFollowUpSilent rest false
  | FollowUpStep.delayStep _ :: rest, pending => runFollowUpSilent rest pending
  | FollowUpStep.writeNudge :: rest, pending => runFollowUpSilent rest pending
  | FollowUpStep.setupTerminal :: rest, pending => runFollowUpSilent rest pending

/-- The command-mode accumulator of `setupTTYSTDIN` (lines 452-453). -/
structure CommandModeState where
  isInCommandMode : Bool
  commandBuffer : List Char
  deriving DecidableEq, Repr

def helpText : List Char :=
  "Commands: STOP/EXIT/QUIT - Stop container, HELP/? - Show help. Use F12 to enter command mode.".toList
def statusReportText (n : Nat) : List Char :=
  "Container running. Buffer size: ".toList ++ (Nat.repr n).toList ++ " chars. TTY active.".toList
def bufferClearedText : List Char := "Buffer cleared.".toList
def cancelledText : List Char := "Command mode cancelled.".toList
def unknownCommandText (c : List Char) : List Char :=
  "Unknown command: ".toList ++ c ++ ". Available: STOP, HELP, STATUS, CLEAR".toList
def stoppingText : List Char := "Stopping container...".toList

/-- `handleInternalCommand` (lines 304-331), case for case. -/
def handleInternalCommand (st : ExecutorState) (command : List Char) : ExecutorState :=
  if command == "STOP".toList || command == "EXIT".toList || command == "QUIT".toList then
    stop (updateStatus st stoppingText)
  else if command == "HELP".toList || command == "?".toList then
    updateStatus st helpText
  else if command == "STATUS".toList then
    updateStatus st (statusReportText st.buffer.length)
  else if command == "CLEAR".toList then
    updateStatus { st with buffer := [] } bufferClearedText
  else if jsTrim command == [] then
    updateStatus st cancelledText
  else
    updateStatus st (unknownCommandText command)

/-- The F12 escape sequence checked by whole-chunk equality (line 480). -/
def f12Sequence : List Char := "\x1b[24~".toList

/-- The echoed command-mode banner (line 484). -/
def commandModeEcho : List Char := "\n🔧 Command mode (F12 to activate): ".toList

/-- The first byte of a stdin chunk, as the numeric value `data[0]`. -/
def headByte (data : List Char) : Option Nat :=
  data.head?.map Char.toNat

/-- The stdin `data` handler of `setupTTYSTDIN` (lines 456-531):
interrupt byte, F12 command-mode entry, command-mode editing and
submission, and pass-through forwarding, in the source's priority order.
The stream `end` event that `ttyStream?.end()` may later trigger is
delivered separately as a `SessionEvent`. -/
def handleStdinData (st : ExecutorState) (cm : CommandModeState) (data : List Char) :
    ExecutorState × CommandModeState :=
  if headByte data == some 3 then
    let s1 := clearStatus st
    if s1.container.isSome then (resetState (destroyContainer s1), cm)
    else (resetState s1, cm)
  else if data == f12Sequence then
    ({ st with termOut := st.termOut ++ commandModeEcho }, ⟨true, []⟩)
  else if cm.isInCommandMode then
    if headByte data == some 127 || headByte data == some 8 then
      if 0 < cm.commandBuffer.length then
        ({ st with termOut := st.termOut ++ "\x08 \x08".toList }, ⟨true, cm.commandBuffer.dropLast⟩)
      else
        ({ st with termOut := st.termOut ++ "\n".toList }, ⟨false, []⟩)
    else if headByte data == some 13 || headByte data == some 10 then
      let command := (jsTrim cm.commandBuffer).map Char.toUpper
      let s1 := { st with termOut := st.termOut ++ "\n".toList }
      (handleInternalCommand s1 command, ⟨false, []⟩)
    else if (match headByte data with
             | some b => decide (32 ≤ b) && decide (b ≤ 126)
             | none => false) then
      ({ st with termOut := st.termOut ++ data }, ⟨true, cm.commandBuffer ++ data⟩)
    else (st, cm)
  else
    if st.ttyStream.isSome then
      ({ st with streamWrites := st.streamWrites ++ [data] }, cm)
    else (st, cm)

/-- Feed a sequence of stdin chunks through the handler. -/
def runStdinSeq (st : ExecutorState) (cm : CommandModeState) :
    List (List Char) → ExecutorState × CommandModeState
  | [] => (st, cm)
  | d :: rest =>
      let r := handleStdinData st cm d
      runStdinSeq r.1 r.2 rest

/-- A concrete idle executor state: no handles, empty buffer, default
image, latch pending. -/
def sampleIdleState : ExecutorState :=
  ⟨none, none, [], true, false, "ubuntu:latest".toList, true, none, [], [], 0, 0⟩

/-- A concrete attached executor state: both handles held. -/
def sampleActiveState : ExecutorState :=
  ⟨some 0, some 0, "hi".toList, false, false, "ubuntu:latest".toList, true, none, [], [], 0, 0⟩

/-! ## Buffer truncation (C1) -/

theorem bufferAppend_length_le (buf data : List Char) :
    (bufferAppend buf data).length ≤ 10000 := by
  simp only [bufferAppend]
  split
  · simp only [List.length_drop]
    omega
  · omega

theorem foldl_bufferAppend_length_le (chunks : List (List Char)) (buf data : List Char) :
    ((data :: chunks).foldl bufferAppend buf).length ≤ 10000 := by
  induction chunks generalizing buf data with
  | nil => simpa using bufferAppend_length_le buf data
  | cons d rest ih => simpa using ih (bufferAppend buf data) d

theorem bufferAppend_truncates (buf data : List Char)
    (h : 10000 < (buf ++ data).length) (hd : data.length ≤ 5000) :
    bufferAppend buf data = buf.drop (buf.length + data.length - 5000) ++ data := by
  have hb : (buf ++ data).length = buf.length + data.length := List.length_append _ _
  simp only [bufferAppend, if_pos h]
  rw [hb, List.drop_append_eq_append_drop]
  have h0 : buf.length + data.length - 5000 - buf.length = 0 := by omega
  rw [h0, List.drop_zero]

/-- C1 (corrected): the output buffer never exceeds 10,000 characters
after any append in any sequence of real-output appends; when an append
pushes the buffer past the ceiling, the retained content is the most
recent 5,000 characters of the post-append buffer — for a chunk of at
most 5,000 characters this is the most recent `5000 - |chunk|` characters
of the pre-append buffer followed by the chunk (not the most recent 5,000
characters of the pre-append buffer followed by the chunk, as claimed). -/
theorem outputBuffer_invariant (buf data : List Char) (chunks : List (List Char))
    (h : 10000 < (buf ++ data).length) (hd : data.length ≤ 5000) :
    ((data :: chunks).foldl bufferAppend buf).length ≤ 10000 ∧
    bufferAppend buf data = buf.drop (buf.length + data.length - 5000) ++ data :=
  ⟨foldl_bufferAppend_length_le chunks buf data, bufferAppend_truncates buf data h hd⟩

/-- C1 witness: the truncation theorem applied at a 10,000-character
buffer receiving a one-character chunk. -/
theorem outputBuffer_invariant_witness :
    ((['x'] :: ([] : List (List Char))).foldl bufferAppend (List.replicate 10000 'a')).length ≤ 10000 ∧
    bufferAppend (List.replicate 10000 'a') ['x'] =
      (List.replicate 10000 'a').drop ((List.replicate 10000 'a' : List Char).length + (['x'] : List Char).length - 5000) ++ ['x'] :=
  outputBuffer_invariant (List.replicate 10000 'a') ['x'] []
    (by simp only [List.length_append, List.length_replicate, List.length_cons,
                   List.length_nil]; omega)
    (by simp only [List.length_cons, List.length_nil]; omega)

/-- C1 counterexample: appending one character to a 10,000-character
buffer triggers truncation, and the result (5,000 characters) is not the
most recent 5,000 characters of the pre-append buffer followed by the
chunk (5,001 characters). -/
theorem outputBuffer_claim_counterexample :
    10000 < ((List.replicate 10000 'a' : List Char) ++ ['x']).length ∧
    bufferAppend (List.replicate 10000 'a') ['x'] ≠
      (List.replicate 10000 'a').drop ((List.replicate 10000 'a' : List Char).length - 5000) ++ ['x'] := by
  have h1 : 10000 < ((List.replicate 10000 'a' : List Char) ++ ['x']).length := by
    simp only [List.length_append, List.length_replicate, List.length_cons, List.length_nil]
    omega
  refine ⟨h1, ?_⟩
  intro hEq
  have hlen := congrArg List.length hEq
  simp only [bufferAppend] at hlen
  rw [if_pos h1] at hlen
  simp only [List.length_drop, List.length_append, List.length_replicate,
             List.length_cons, List.length_nil] at hlen
  omega

/-! ## Readiness heuristic (C9) -/

/-- The readiness condition with the spec's "substantial" clause read as
the code implements it: more than 10 characters after trimming leading
and trailing whitespace. -/
def chunkSignalsReadyAmendedWords (data : List Char) : Bool :=
  hasPrompt data || (decide (10 < (jsTrim data).length) && includes data ("\n".toList))

/-- C9 counterexample: the chunk `"ab cd ef gh\n"` is not metadata, has
only 8 non-whitespace characters (so the claim's predicate is false), yet
its trimmed length is 11, so the code signals readiness on it. -/
theorem readiness_spec_counterexample :
    isDockerMetadata ("ab cd ef gh\n".toList) = false ∧
    chunkSignalsReady ("ab cd ef gh\n".toList) = true ∧
    chunkSignalsReadySpecWords ("ab cd ef gh\n".toList) = false := by decide

/-- C9 (corrected): for every non-metadata chunk, the chunk signals
readiness iff it contains a shell-prompt fragment, or its trimmed text
has more than 10 characters (whitespace in the interior included) and the
chunk contains a line break. -/
theorem readiness_heuristic_amended (data : List Char)
    (h : isDockerMetadata data = false) :
    chunkSignalsReady data = true ↔
      (hasPrompt data = true ∨
        (10 < (jsTrim data).length ∧ includes data ("\n".toList) = true)) := by
  simp [chunkSignalsReady, h, Bool.or_eq_true, Bool.and_eq_true, decide_eq_true_iff]

/-- C9 witness: the amended readiness theorem applied at a prompt chunk. -/
theorem readiness_heuristic_amended_witness :
    chunkSignalsReady ("root@box:~# ".toList) = true ↔
      (hasPrompt ("root@box:~# ".toList) = true ∨
        (10 < (jsTrim ("root@box:~# ".toList)).length ∧
          includes ("root@box:~# ".toList) ("\n".toList) = true)) :=
  readiness_heuristic_amended ("root@box:~# ".toList) (by decide)

/-! ## Metadata chunks are dropped (C4) -/

/-- C4: a chunk classified as Docker metadata leaves the whole executor
state unchanged — nothing buffered, nothing echoed to the host terminal,
the first-data flag untouched — and does not fire the readiness latch,
whatever prompt-like substrings the chunk also contains. -/
theorem metadata_chunk_no_op (st : ExecutorState) (data : List Char)
    (h : isDockerMetadata data = true) :
    handleChunkFired st data = (st, false) := by
  simp [handleChunkFired, h]

/-- C4 witness: a metadata chunk that also contains the prompt-like
substrings `root@`, `# ` and `$ ` is dropped without any effect. -/
theorem metadata_chunk_no_op_witness :
    handleChunkFired sampleActiveState ("\x7b\"stream\":true\x7d root@host# $ ".toList) =
      (sampleActiveState, false) :=
  metadata_chunk_no_op sampleActiveState ("\x7b\"stream\":true\x7d root@host# $ ".toList)
    (by decide)

/-! ## The readiness latch fires at most once (C3) -/

theorem readyStep_of_not_pending (st : ExecutorState) (e : ReadyEvent)
    (h : st.readyPending = false) :
    (readyStep st e).2 = false ∧ (readyStep st e).1.readyPending = false := by
  cases e with
  | timer => simp [readyStep, fallbackTimerFire, h]
  | chunk data =>
      by_cases hm : isDockerMetadata data
      · simp [readyStep, handleChunkFired, hm, h]
      · by_cases hf : (st.isFirstData && decide (0 < (jsTrim data).length)) = true
        · simp [readyStep, handleChunkFired, hm, hf, h]
        · simp [readyStep, handleChunkFired, hm, hf, h]

theorem readyStep_fired_pending (st : ExecutorState) (e : ReadyEvent)
    (h : (readyStep st e).2 = true) :
    (readyStep st e).1.readyPending = false := by
  cases e with
  | timer =>
      by_cases hp : st.readyPending = true
      · simp [readyStep, fallbackTimerFire, hp]
      · simp [readyStep, fallbackTimerFire, hp] at h
  | chunk data =>
      by_cases hm : isDockerMetadata data
      · simp [readyStep, handleChunkFired, hm] at h
      · by_cases hf : (st.isFirstData && decide (0 < (jsTrim data).length)) = true
        · by_cases hr : (st.readyPending && chunkSignalsReady data) = true
          · simp [readyStep, handleChunkFired, hm, hf, hr]
          · simp [readyStep, handleChunkFired, hm, hf, hr] at h
        · by_cases hr : (st.readyPending && chunkSignalsReady data) = true
          · simp [readyStep, handleChunkFired, hm, hf, hr]
          · simp [readyStep, handleChunkFired, hm, hf, hr] at h

theorem fireCount_of_not_pending (evs : List ReadyEvent) (st : ExecutorState)
    (h : st.readyPending = false) :
    fireCount st evs = 0 := by
  induction evs generalizing st with
  | nil => rfl
  | cons e rest ih =>
      have h2 := readyStep_of_not_pending st e h
      simp [fireCount, h2.1, ih _ h2.2]

/-- C3: over every interleaving of stream chunks and fallback-timer
expiries within one session lifetime, the readiness latch fires at most
once: once `readyResolve` has been nulled, neither a later qualifying
chunk nor the timer fires it again. -/
theorem latch_fires_at_most_once (st : ExecutorState) (evs : List ReadyEvent) :
    fireCount st evs ≤ 1 := by
  induction evs generalizing st with
  | nil => simp [fireCount]
  | cons e rest ih =>
      by_cases hf : (readyStep st e).2 = true
      · have hp := readyStep_fired_pending st e hf
        simp [fireCount, hf, fireCount_of_not_pending rest _ hp]
      · have hf' : (readyStep st e).2 = false := by
          cases hb : (readyStep st e).2
          · rfl
          · exact absurd hb hf
        simpa [fireCount, hf'] using ih (readyStep st e).1

/-! ## Spawn while active is rejected unchanged (C5) -/

/-- C5: whenever a container or stream handle is held, `runNewContainer`
fails with the already-active error and mutates nothing — the handles,
the buffer, and `imageName` are exactly as before, even when an image
override was supplied. -/
theorem spawn_while_active_rejected (st : ExecutorState) (img : Option (List Char))
    (h : st.container.isSome = true ∨ st.ttyStream.isSome = true) :
    runNewContainerModel st img = (st, Except.error alreadyActiveMessage) := by
  have hr : isReadyB st = false := by
    rcases h with h | h
    · rcases Option.isSome_iff_exists.mp h with ⟨a, ha⟩
      simp [isReadyB, ha]
    · rcases Option.isSome_iff_exists.mp h with ⟨a, ha⟩
      simp [isReadyB, ha]
  simp [runNewContainerModel, hr]

/-- C5 witness: the rejection theorem applied at an attached state with
an image override supplied. -/
theorem spawn_while_active_rejected_witness :
    runNewContainerModel sampleActiveState (some ("alpine:3".toList)) =
      (sampleActiveState, Except.error alreadyActiveMessage) :=
  spawn_while_active_rejected sampleActiveState (some ("alpine:3".toList))
    (Or.inl (by decide))

/-! ## The fallback timer cannot rescue a silent shell (C2) -/

/-- C2 (code bug evidence): executing the follow-up routine of
`runContainer` on a silent shell — no qualifying chunk ever arrives, the
latch stays pending — blocks at `await this.ready()` with the latch still
pending and the fallback-resolve step still unexecuted downstream.  The
fallback is sequenced after the await inside the same async block, so it
can never fire the latch when the latch is the thing being waited for:
`ready()` pends forever, contrary to the claim (and to the code's own
`Fallback:` comment). -/
theorem silent_shell_blocks_before_fallback :
    runFollowUpSilent followUpRoutine true =
      ([FollowUpStep.awaitReady, FollowUpStep.delayStep 500, FollowUpStep.setupTerminal,
        FollowUpStep.delayStep 5000, FollowUpStep.fallbackResolve], true) := rfl

/-! ## The handle invariant during spawn (C6) -/

/-- Sanity link: the last suspension-point state is exactly what
`runContainerModel` produces when every runtime step succeeds. -/
theorem spawnSuspensionStates_last_eq_run (st : ExecutorState) (cid sid : Nat) :
    (spawnSuspensionStates st cid sid).getLast? =
      some (runContainerModel st ⟨true, true, true, true, true⟩ cid sid) := rfl

/-- C6 counterexample: starting from a concrete idle state, the handle
invariant is violated at an observable suspension point of spawn — after
the container is created and before the stream is attached, a container
handle is held with no stream handle. -/
theorem handles_invariant_counterexample :
    ¬ (∀ s ∈ spawnSuspensionStates sampleIdleState 0 0, handlesBalanced s = true) := by
  decide

/-- C6 (corrected): starting from an idle state, every observable state
of spawn's happy path either satisfies the both-null-or-both-non-null
handle invariant or lies in the window between successful container
creation and stream attach, where the container handle is held while the
stream handle is still null; the attached end state satisfies the
invariant, and `resetState` always restores both handles to null
together. -/
theorem handles_invariant_amended (st : ExecutorState) (cid sid : Nat)
    (h1 : st.container = none) (h2 : st.ttyStream = none) :
    (∀ s ∈ spawnSuspensionStates st cid sid,
        handlesBalanced s = true ∨ (s.container = some cid ∧ s.ttyStream = none)) ∧
    (spawnSuspensionStates st cid sid).getLast?.map handlesBalanced = some true ∧
    (∀ s : ExecutorState, (resetState s).container = none ∧ (resetState s).ttyStream = none) := by
  refine ⟨?_, rfl, fun s => ⟨rfl, rfl⟩⟩
  intro s hs
  simp only [spawnSuspensionStates, List.mem_cons, List.not_mem_nil, or_false] at hs
  rcases hs with rfl | rfl | rfl | rfl | rfl | rfl <;>
    simp [handlesBalanced, updateStatus, h1, h2]

/-- C6 witness: the amended invariant theorem applied at a concrete idle
state. -/
theorem handles_invariant_amended_witness :
    (∀ s ∈ spawnSuspensionStates sampleIdleState 1 2,
        handlesBalanced s = true ∨ (s.container = some 1 ∧ s.ttyStream = none)) ∧
    (spawnSuspensionStates sampleIdleState 1 2).getLast?.map handlesBalanced = some true ∧
    (∀ s : ExecutorState, (resetState s).container = none ∧ (resetState s).ttyStream = none) :=
  handles_invariant_amended sampleIdleState 1 2 rfl rfl

/-! ## Spawn failures reset the session (C7) -/

/-- C7: whatever runtime step fails during spawn — ping, pull, create,
start, or attach — `runContainer` catches the failure locally and
converts it into: status cleared, one container-destroy attempt exactly
when a container handle exists, and exactly one reset to the idle state;
the resulting session is ready for a subsequent spawn, and the failure is
never propagated (the model is a total function into states). -/
theorem spawn_failure_resets (st : ExecutorState) (env : DockerEnv) (cid sid : Nat)
    (h0 : st.container = none)
    (h : env.pingOk = false ∨ env.pullOk = false ∨ env.createOk = false ∨
         env.startOk = false ∨ env.attachOk = false) :
    isReadyB (runContainerModel st env cid sid) = true ∧
    (runContainerModel st env cid sid).statusLine = none ∧
    (runContainerModel st env cid sid).buffer = [] ∧
    (runContainerModel st env cid sid).shouldStop = false ∧
    (runContainerModel st env cid sid).resetCalls = st.resetCalls + 1 ∧
    (runContainerModel st env cid sid).destroyCalls =
      (if env.pingOk && env.pullOk && env.createOk then st.destroyCalls + 1
       else st.destroyCalls) := by
  obtain ⟨p, u, c, s, a⟩ := env
  cases p <;> cases u <;> cases c <;> cases s <;> cases a <;>
    simp_all [runContainerModel, createContainerModel, spawnFailureRecovery, destroyContainer,
              resetState, clearStatus, updateStatus, isReadyB]

/-- C7 witness: the recovery theorem applied at a concrete idle state
with a failing container start. -/
theorem spawn_failure_resets_witness :
    isReadyB (runContainerModel sampleIdleState ⟨true, true, true, false, true⟩ 0 0) = true ∧
    (runContainerModel sampleIdleState ⟨true, true, true, false, true⟩ 0 0).statusLine = none ∧
    (runContainerModel sampleIdleState ⟨true, true, true, false, true⟩ 0 0).buffer = [] ∧
    (runContainerModel sampleIdleState ⟨true, true, true, false, true⟩ 0 0).shouldStop = false ∧
    (runContainerModel sampleIdleState ⟨true, true, true, false, true⟩ 0 0).resetCalls =
      sampleIdleState.resetCalls + 1 ∧
    (runContainerModel sampleIdleState ⟨true, true, true, false, true⟩ 0 0).destroyCalls =
      (if (true : Bool) && true && true then sampleIdleState.destroyCalls + 1
       else sampleIdleState.destroyCalls) :=
  spawn_failure_resets sampleIdleState ⟨true, true, true, false, true⟩ 0 0 rfl
    (Or.inr (Or.inr (Or.inr (Or.inl rfl))))

/-! ## Exactly one teardown (C8) -/

theorem stop_preserves (st : ExecutorState) :
    (stop st).container = st.container ∧ (stop st).ttyStream = st.ttyStream ∧
    (stop st).destroyCalls = st.destroyCalls ∧ (stop st).resetCalls = st.resetCalls :=
  ⟨rfl, rfl, rfl, rfl⟩

theorem terminal_handler_teardown (st : ExecutorState) (e : SessionEvent)
    (hc : st.container.isSome = true) (ht : isTerminalEvent e = true) :
    (sessionStep st e).destroyCalls = st.destroyCalls + 1 ∧
    (sessionStep st e).resetCalls = st.resetCalls + 1 ∧
    (sessionStep st e).container = none ∧ (sessionStep st e).ttyStream = none := by
  cases e with
  | stopCall => simp [isTerminalEvent] at ht
  | streamEnd =>
      simp [sessionStep, handleStreamEnd, clearStatus, destroyContainer, resetState, hc]
  | streamError =>
      simp [sessionStep, handleStreamError, clearStatus, destroyContainer, resetState, hc]

theorem runSession_stops_only (evs : List SessionEvent) (st : ExecutorState)
    (h : ∀ e ∈ evs, isTerminalEvent e = false) :
    (runSession st evs).destroyCalls = st.destroyCalls ∧
    (runSession st evs).resetCalls = st.resetCalls ∧
    (runSession st evs).container = st.container ∧
    (runSession st evs).ttyStream = st.ttyStream := by
  induction evs generalizing st with
  | nil => exact ⟨rfl, rfl, rfl, rfl⟩
  | cons e rest ih =>
      cases e with
      | stopCall =>
          have := ih (stop st) (fun e' he' => h e' (List.mem_cons_of_mem _ he'))
          simpa [runSession, sessionStep, stop, updateStatus] using this
      | streamEnd =>
          have hx := h SessionEvent.streamEnd (List.mem_cons_self _ _)
          simp [isTerminalEvent] at hx
      | streamError =>
          have hx := h SessionEvent.streamError (List.mem_cons_self _ _)
          simp [isTerminalEvent] at hx

/-- C8: for every trace of `stop()` calls interleaved with the single
terminal event the duplex stream delivers (`end` or `error`) — in
particular stop-stop-end, stop-end-stop, and stop-error — exactly one
container-destroy call and exactly one reset to idle occur; and `stop()`
itself never destroys the container or resets the state, so destruction
is driven solely by the stream handlers. -/
theorem single_teardown (st : ExecutorState) (evs : List SessionEvent)
    (hc : st.container.isSome = true)
    (h1 : (evs.filter isTerminalEvent).length = 1) :
    ((runSession st evs).destroyCalls = st.destroyCalls + 1 ∧
     (runSession st evs).resetCalls = st.resetCalls + 1 ∧
     (runSession st evs).container = none ∧ (runSession st evs).ttyStream = none) ∧
    (∀ s : ExecutorState,
      (stop s).destroyCalls = s.destroyCalls ∧ (stop s).resetCalls = s.resetCalls) := by
  refine ⟨?_, fun s => ⟨rfl, rfl⟩⟩
  induction evs generalizing st with
  | nil => simp at h1
  | cons e rest ih =>
      cases e with
      | stopCall =>
          have h1' : (rest.filter isTerminalEvent).length = 1 := by
            simpa [isTerminalEvent] using h1
          have := ih (stop st) hc h1'
          simpa [runSession, sessionStep, stop, updateStatus] using this
      | streamEnd =>
          have h0 : (rest.filter isTerminalEvent).length = 0 := by
            simpa [isTerminalEvent] using h1
          have hall : ∀ e ∈ rest, isTerminalEvent e = false := by
            intro e he
            rcases List.length_eq_zero.mp h0 |> List.filter_eq_nil_iff.mp with hnil
            simpa using hnil e he
          have hstep := terminal_handler_teardown st SessionEvent.streamEnd hc rfl
          have hrest := runSession_stops_only rest (sessionStep st SessionEvent.streamEnd) hall
          refine ⟨?_, ?_, ?_, ?_⟩ <;>
            simp [runSession, hrest.1, hrest.2.1, hrest.2.2.1, hrest.2.2.2,
                  hstep.1, hstep.2.1, hstep.2.2.1, hstep.2.2.2]
      | streamError =>
          have h0 : (rest.filter isTerminalEvent).length = 0 := by
            simpa [isTerminalEvent] using h1
          have hall : ∀ e ∈ rest, isTerminalEvent e = false := by
            intro e he
            rcases List.length_eq_zero.mp h0 |> List.filter_eq_nil_iff.mp with hnil
            simpa using hnil e he
          have hstep := terminal_handler_teardown st SessionEvent.streamError hc rfl
          have hrest := runSession_stops_only rest (sessionStep st SessionEvent.streamError) hall
          refine ⟨?_, ?_, ?_, ?_⟩ <;>
            simp [runSession, hrest.1, hrest.2.1, hrest.2.2.1, hrest.2.2.2,
                  hstep.1, hstep.2.1, hstep.2.2.1, hstep.2.2.2]

/-- C8 witness: the teardown theorem applied at a concrete attached state
and the trace stop, stream-end, stop. -/
theorem single_teardown_witness :
    ((runSession sampleActiveState
        [SessionEvent.stopCall, SessionEvent.streamEnd, SessionEvent.stopCall]).destroyCalls =
          sampleActiveState.destroyCalls + 1 ∧
     (runSession sampleActiveState
        [SessionEvent.stopCall, SessionEvent.streamEnd, SessionEvent.stopCall]).resetCalls =
          sampleActiveState.resetCalls + 1 ∧
     (runSession sampleActiveState
        [SessionEvent.stopCall, SessionEvent.streamEnd, SessionEvent.stopCall]).container = none ∧
     (runSession sampleActiveState
        [SessionEvent.stopCall, SessionEvent.streamEnd, SessionEvent.stopCall]).ttyStream = none) ∧
    (∀ s : ExecutorState,
      (stop s).destroyCalls = s.destroyCalls ∧ (stop s).resetCalls = s.resetCalls) :=
  single_teardown sampleActiveState
    [SessionEvent.stopCall, SessionEvent.streamEnd, SessionEvent.stopCall]
    (by decide) (by decide)

/-! ## Command-mode finite-state machine (C10) -/

/-- C10: the command-mode FSM behaves as claimed on all four scenarios:
entry sequence then `S`,`T`,`A`,`T`,`U`,`S` then enter shows exactly the
STATUS report (buffer size) and returns to pass-through mode without
touching the buffer, the stream, or the stop flag; entry then immediate
enter cancels without executing any command; entry, one character, then
two backspaces leaves command mode without executing any command; and a
submitted command is matched after trimming and upper-casing, so
lower-case padded `" status "` produces the same STATUS report. -/
theorem command_mode_fsm (st : ExecutorState) :
    ((runStdinSeq st ⟨false, []⟩
        [f12Sequence, ['S'], ['T'], ['A'], ['T'], ['U'], ['S'], ['\r']]).2 = ⟨false, []⟩ ∧
     (runStdinSeq st ⟨false, []⟩
        [f12Sequence, ['S'], ['T'], ['A'], ['T'], ['U'], ['S'], ['\r']]).1.statusLine =
          some (statusReportText st.buffer.length) ∧
     (runStdinSeq st ⟨false, []⟩
        [f12Sequence, ['S'], ['T'], ['A'], ['T'], ['U'], ['S'], ['\r']]).1.buffer = st.buffer ∧
     (runStdinSeq st ⟨false, []⟩
        [f12Sequence, ['S'], ['T'], ['A'], ['T'], ['U'], ['S'], ['\r']]).1.streamWrites =
          st.streamWrites ∧
     (runStdinSeq st ⟨false, []⟩
        [f12Sequence, ['S'], ['T'], ['A'], ['T'], ['U'], ['S'], ['\r']]).1.shouldStop =
          st.shouldStop) ∧
    ((runStdinSeq st ⟨false, []⟩ [f12Sequence, ['\r']]).2 = ⟨false, []⟩ ∧
     (runStdinSeq st ⟨false, []⟩ [f12Sequence, ['\r']]).1.statusLine = some cancelledText ∧
     (runStdinSeq st ⟨false, []⟩ [f12Sequence, ['\r']]).1.buffer = st.buffer ∧
     (runStdinSeq st ⟨false, []⟩ [f12Sequence, ['\r']]).1.streamWrites = st.streamWrites ∧
     (runStdinSeq st ⟨false, []⟩ [f12Sequence, ['\r']]).1.shouldStop = st.shouldStop ∧
     (runStdinSeq st ⟨false, []⟩ [f12Sequence, ['\r']]).1.destroyCalls = st.destroyCalls ∧
     (runStdinSeq st ⟨false, []⟩ [f12Sequence, ['\r']]).1.resetCalls = st.resetCalls) ∧
    ((runStdinSeq st ⟨false, []⟩
        [f12Sequence, ['A'], [Char.ofNat 127], [Char.ofNat 127]]).2 = ⟨false, []⟩ ∧
     (runStdinSeq st ⟨false, []⟩
        [f12Sequence, ['A'], [Char.ofNat 127], [Char.ofNat 127]]).1.statusLine = st.statusLine ∧
     (runStdinSeq st ⟨false, []⟩
        [f12Sequence, ['A'], [Char.ofNat 127], [Char.ofNat 127]]).1.buffer = st.buffer ∧
     (runStdinSeq st ⟨false, []⟩
        [f12Sequence, ['A'], [Char.ofNat 127], [Char.ofNat 127]]).1.streamWrites =
          st.streamWrites ∧
     (runStdinSeq st ⟨false, []⟩
        [f12Sequence, ['A'], [Char.ofNat 127], [Char.ofNat 127]]).1.shouldStop = st.shouldStop ∧
     (runStdinSeq st ⟨false, []⟩
        [f12Sequence, ['A'], [Char.ofNat 127], [Char.ofNat 127]]).1.destroyCalls =
          st.destroyCalls ∧
     (runStdinSeq st ⟨false, []⟩
        [f12Sequence, ['A'], [Char.ofNat 127], [Char.ofNat 127]]).1.resetCalls =
          st.resetCalls) ∧
    ((runStdinSeq st ⟨false, []⟩
        [f12Sequence, [' '], ['s'], ['t'], ['a'], ['t'], ['u'], ['s'], [' '], ['\r']]).2 =
          ⟨false, []⟩ ∧
     (runStdinSeq st ⟨false, []⟩
        [f12Sequence, [' '], ['s'], ['t'], ['a'], ['t'], ['u'], ['s'], [' '], ['\r']]).1.statusLine =
          some (statusReportText st.buffer.length)) := by
  refine ⟨⟨?_, ?_, ?_, ?_, ?_⟩, ⟨?_, ?_, ?_, ?_, ?_, ?_, ?_⟩,
          ⟨?_, ?_, ?_, ?_, ?_, ?_, ?_⟩, ⟨?_, ?_⟩⟩ <;>
    simp [runStdinSeq, handleStdinData, handleInternalCommand, headByte, f12Sequence,
          jsTrim, isJsWhitespace, commandModeEcho, updateStatus, clearStatus, stop]

end DockerExec
